import Mathlib

/-!
Verification of the WireGuard-spa provisioning backend.

This file shallowly embeds the core logic of the repository:

* `api/shared/vm_provisioner.py` — idempotent get-or-create of the WireGuard
  VM, status polling, config extraction from run-command output, dry-run
  state machine;
* `api/shared/status_store.py` — the in-memory job ledger;
* `api/start_job/__init__.py` — the upstream polling loop;
* `api/shared/auth.py` — request principal validation.

Outcomes of external SDK / network calls (Azure `get`/`list`, run-command
output, upstream HTTP responses) are passed in as explicit parameters;
Python exceptions raised by those calls are modelled with an explicit
`PyRes` result type so that `try/except` control flow is preserved.
Python strings are modelled as Lean `String` (lists of unicode scalars),
and `time.time()` floats as rationals.
-/

/-! ## Python string primitives used by the source -/

/-- `isPrefixL pat s` : `pat` is a prefix of `s` (on character lists). -/
def isPrefixL : List Char → List Char → Bool
  | [], _ => true
  | _ :: _, [] => false
  | a :: as, b :: bs => a == b && isPrefixL as bs

/-- First index at which `pat` occurs in `s`; `none` if absent.
Mirrors Python `str.find` (which returns `-1` for absent). -/
def findIdxL (pat : List Char) : List Char → Option Nat
  | [] => if pat.isEmpty then some 0 else none
  | c :: rest =>
    if isPrefixL pat (c :: rest) then some 0
    else (findIdxL pat rest).map (· + 1)

/-- Python `pat in s` substring test. -/
def pyContains (s pat : String) : Bool := (findIdxL pat.data s.data).isSome

/-- Python `s.startswith(pre)`. -/
def pyStartsWith (s pre : String) : Bool := isPrefixL pre.data s.data

/-- Python whitespace characters stripped by `str.strip()`. -/
def isPySpace (c : Char) : Bool :=
  c == ' ' || c == '\t' || c == '\n' || c == '\r' || c == '\x0b' || c == '\x0c'

/-- Python `str.strip()` on character lists. -/
def stripL (s : List Char) : List Char :=
  ((s.dropWhile isPySpace).reverse.dropWhile isPySpace).reverse

/-- Python `s.replace(pat, rep)`: replace all non-overlapping occurrences,
left to right.  (Only ever called with a non-empty `pat` in the source.) -/
def replaceL (pat rep : List Char) : List Char → List Char
  | [] => []
  | c :: rest =>
    if h : pat ≠ [] ∧ isPrefixL pat (c :: rest) = true then
      rep ++ replaceL pat rep ((c :: rest).drop pat.length)
    else
      c :: replaceL pat rep rest
termination_by s => s.length
decreasing_by
  · have hp : 0 < pat.length := List.length_pos.mpr h.1
    simp only [List.length_drop, List.length_cons]
    omega
  · simp only [List.length_cons]
    omega

/-- Python `s.replace(pat, rep)` on `String`. -/
def pyReplace (s pat rep : String) : String :=
  String.mk (replaceL pat.data rep.data s.data)

/-- Python `s.lower()` (ASCII case folding suffices for the status strings
compared in the source). -/
def pyLower (s : String) : String := String.mk (s.data.map Char.toLower)

/-! ## `_extract_wireguard_config` (vm_provisioner.py lines 800-829) -/

/-- The start sentinel marker. -/
def startMarkerWG : String := "=== WIREGUARD_CLIENT_CONFIG_START ==="

/-- The end sentinel marker. -/
def endMarkerWG : String := "=== WIREGUARD_CLIENT_CONFIG_END ==="

/-- `output[start_idx + len(start_marker) : end_idx].strip()` — the candidate
config text between the two markers found at indices `si` and `ei`. -/
def extractionSlice (output : String) (si ei : Nat) : String :=
  String.mk (stripL
    ((output.data.drop (si + startMarkerWG.data.length)).take
      (ei - (si + startMarkerWG.data.length))))

/-- `VMProvisioner._extract_wireguard_config`: locate the sentinel markers,
slice the text strictly between them, strip whitespace, and accept only if
both structural section markers are present. -/
def _extract_wireguard_config (output : String) : Option String :=
  match findIdxL startMarkerWG.data output.data, findIdxL endMarkerWG.data output.data with
  | some si, some ei =>
    if pyContains (extractionSlice output si ei) "[Interface]" &&
       pyContains (extractionSlice output si ei) "[Peer]" then
      some (extractionSlice output si ei)
    else
      none
  | some _, none => none
  | none, _ => none

/-! ## VM provisioner data model (vm_provisioner.py) -/

/-- A virtual machine as reported by the compute provider's `list`/`get`. -/
structure VM where
  name : String
  tags : List (String × String)
  provisioning_state : String
  location : String
deriving DecidableEq

/-- Python `dict.get` on a tag dictionary (modelled as an association list). -/
def tagGet (tags : List (String × String)) (key : String) : Option String :=
  match tags.find? (fun p => p.1 == key) with
  | some p => some p.2
  | none => none

/-- `vm.tags and vm.tags.get('purpose') == 'wireguard-vpn'` (an absent/empty
tag dictionary makes the conjunction falsy, and also makes the lookup miss). -/
def isWireGuardVM (vm : VM) : Bool :=
  tagGet vm.tags "purpose" == some "wireguard-vpn"

/-- `vm.provisioning_state in ['Succeeded', 'Creating', 'Updating']`. -/
def isActiveState (s : String) : Bool :=
  s == "Succeeded" || s == "Creating" || s == "Updating"

/-- The `for vm in vms:` scan of `get_or_create_vm`: the first VM that carries
the WireGuard purpose tag *and* is in an active provisioning state (a tagged
VM in an inactive state is skipped and the scan continues). -/
def findActiveWG : List VM → Option VM
  | [] => none
  | vm :: rest =>
    if isWireGuardVM vm && isActiveState vm.provisioning_state then some vm
    else findActiveWG rest

/-- Outcomes of the external Azure calls made by `get_or_create_vm` /
`create_vm`, plus the provider-visible VM list.  Exception outcomes of the
creation calls are carried as `Option String` (the exception text). -/
structure AzureEnv where
  /-- `compute_client.virtual_machines.list(resource_group)` result. -/
  vms : List VM
  /-- `public_ip_addresses.get(rg, name).ip_address`; `none` models both a
  raised exception and a null address (either way `ip_address` ends up falsy
  `None` in the source). -/
  publicIpOf : String → Option String
  /-- `_retrieve_wireguard_config_via_run_command(vm_name)`; that helper
  catches all its own exceptions and returns `None` on any failure. -/
  runCommandConfig : String → Option String
  /-- `AZURE_RESOURCE_GROUP`. -/
  resourceGroup : String
  /-- `SSH_PUBLIC_KEY` or `AZURE_ADMIN_PASSWORD` is configured. -/
  hasAuthCredential : Bool
  /-- Exception text raised by the network prerequisite calls
  (shared VNet/NSG, public IP, NIC) in `create_vm`, if any. -/
  networkExn : Option String
  /-- Exception text raised by `virtual_machines.begin_create_or_update`. -/
  vmCreateExn : Option String
  /-- Exception text raised by `virtual_machines.list` in `get_or_create_vm`. -/
  listExn : Option String

/-- The operation dictionary returned by `get_or_create_vm` / `create_vm`.
`none` in an `Option` field models the key being absent from the Python dict
(or mapped to `None`). -/
structure OperationData where
  vmName : String
  operationId : String
  status : String
  location : Option String := none
  publicIp : Option String := none
  publicIpName : Option String := none
  resourceGroup : Option String := none
  confText : Option String := none
  isExisting : Option Bool := none
deriving DecidableEq

/-- `VMProvisioner._get_sample_config`: the fallback sample client config,
rendered with the given public address. -/
def _get_sample_config (public_ip : String) : String :=
  "[Interface]\nPrivateKey = cOFA1gfMGvoDSJHKOlk5XaXDQZCOVAn3wR4SbQsXX3Q=\nAddress = 10.13.13.2/24\nDNS = 1.1.1.1\n\n[Peer]\nPublicKey = n/fMKKDjMxKNvSZHQTWYUCYDcTGgTwMJkLc0X7rTgXo=\nEndpoint = "
    ++ public_ip
    ++ ":51820\nAllowedIPs = 0.0.0.0/0, ::/0\nPersistentKeepalive = 25\n"

/-- The tags applied to a freshly created WireGuard VM. -/
def wgTags : List (String × String) :=
  [("purpose", "wireguard-vpn"), ("auto-delete", "true"), ("created-by", "wireguard-spa")]

/-- `VMProvisioner.create_vm` (non-dry-run): start asynchronous creation of a
fresh VM.  `freshName` stands for the `wg-{int(time.time())}` name generated
by the source.  The returned environment carries the provider-visible effect:
the accepted VM appears in subsequent `list` results in state `Creating`.
(In the source the network prerequisites are created before the credential
check and the VM call after it; the prerequisite objects themselves are not
modelled, only the exception outcomes of those calls.) -/
def create_vm (env : AzureEnv) (freshName location : String) :
    (Bool × Option String × Option OperationData) × AzureEnv :=
  match env.networkExn with
  | some e => ((false, some ("Failed to start VM creation: " ++ e), none), env)
  | none =>
    if !env.hasAuthCredential then
      ((false, some "Missing SSH_PUBLIC_KEY or AZURE_ADMIN_PASSWORD for Linux VM authentication",
        none), env)
    else
      match env.vmCreateExn with
      | some e => ((false, some ("Failed to start VM creation: " ++ e), none), env)
      | none =>
        ((true, none, some
          { vmName := freshName
            operationId := freshName
            status := "InProgress"
            location := some location
            publicIpName := some (freshName ++ "-ip")
            resourceGroup := some env.resourceGroup }),
         { env with vms := env.vms ++
            [{ name := freshName, tags := wgTags,
               provisioning_state := "Creating", location := location }] })

/-- `VMProvisioner.get_or_create_vm` (non-dry-run): scan the resource group
for a tagged active VM; if found, return it (resolving its address and, when
`Succeeded` with a truthy address, retrieving the config with the sample
config as fallback); otherwise delegate to `create_vm`. -/
def get_or_create_vm (env : AzureEnv) (freshName location : String) :
    (Bool × Option String × Option OperationData) × AzureEnv :=
  match env.listExn with
  | some e => ((false, some ("Failed to get or create VM: " ++ e), none), env)
  | none =>
    match findActiveWG env.vms with
    | some vm =>
      let public_ip_name := vm.name ++ "-ip"
      let ip_address := env.publicIpOf public_ip_name
      let conf_text : Option String :=
        match ip_address with
        | some ip =>
          if vm.provisioning_state == "Succeeded" && ip != "" then
            match env.runCommandConfig vm.name with
            | some c => some c
            | none => some (_get_sample_config ip)
          else none
        | none => none
      ((true, none, some
        { vmName := vm.name
          operationId := vm.name
          status := vm.provisioning_state
          location := some vm.location
          publicIp := ip_address
          publicIpName := some public_ip_name
          resourceGroup := some env.resourceGroup
          confText := conf_text
          isExisting := some true }), env)
    | none => create_vm env freshName location

/-- A sequence of `get_or_create_vm` calls threading the environment, each
with its own fresh name and location; collects the `operationId` of each
call's result. -/
def getOrCreateSeq (env : AzureEnv) : List (String × String) → List (Option String) × AzureEnv
  | [] => ([], env)
  | (n, loc) :: rest =>
    let r := get_or_create_vm env n loc
    let tail := getOrCreateSeq r.2 rest
    ((r.1.2.2.map OperationData.operationId) :: tail.1, tail.2)

/-! ## `get_vm_status` (vm_provisioner.py lines 490-613) -/

/-- Result of a Python expression: a value, or a raised exception (its text). -/
inductive PyRes (α : Type) where
  | ok : α → PyRes α
  | exn : String → PyRes α
deriving DecidableEq

/-- The VM view fetched by `virtual_machines.get(..., expand='instanceView')`:
its provisioning state and the instance-view status list (level, message),
`none` when `instance_view` is absent. -/
structure VMView where
  provisioning_state : String
  instanceViewStatuses : Option (List (String × Option String))
deriving DecidableEq

/-- The status dictionary returned by `get_vm_status`.  `none` models an
absent key (or a key mapped to `None`, for `publicIp`). -/
structure StatusData where
  vmName : String
  status : String
  progress : Option String := none
  error : Option String := none
  publicIp : Option String := none
  confText : Option String := none
deriving DecidableEq

/-- The `for status in vm.instance_view.statuses:` scan of the `Failed`
branch: the last Error-level status with a truthy message wins, defaulting to
"VM provisioning failed". -/
def stateErrorMessage (statuses : Option (List (String × Option String))) : String :=
  match statuses with
  | none => "VM provisioning failed"
  | some l =>
    l.foldl (fun acc p =>
      if p.1 == "Error" then
        match p.2 with
        | some m => if m == "" then acc else m
        | none => acc
      else acc) "VM provisioning failed"

/-- The body of the inner `try:` of `get_vm_status` (lines 519-594): an
exception from the provider `get` propagates, and so does the `TypeError`
raised by `conf_text.replace("REPLACE_WITH_PUBLIC_IP", None)` when the
public address is unresolved (`ip_address is None`). -/
def get_vm_status_inner (vm_name : String) (vmGet : PyRes VMView)
    (ip_address : Option String) (conf_retrieved : Option String) :
    PyRes (Bool × Option String × Option StatusData) :=
  match vmGet with
  | .exn e => .exn e
  | .ok vm =>
    if vm.provisioning_state == "Succeeded" then
      match conf_retrieved with
      | some conf0 =>
        if pyContains conf0 "REPLACE_WITH_PUBLIC_IP" || pyStartsWith conf0 "[Interface]" then
          match ip_address with
          | none => .exn "replace() argument 2 must be str, not NoneType"
          | some ip =>
            let c1 := pyReplace conf0 "REPLACE_WITH_PUBLIC_IP" ip
            let c2 := if pyContains c1 ":51820" && !(pyContains c1 ip) then
                        pyReplace c1 ":51820" (ip ++ ":51820")
                      else c1
            .ok (true, none, some
              { vmName := vm_name, status := "Succeeded", publicIp := some ip,
                confText := some c2 })
        else
          .ok (true, none, some
            { vmName := vm_name, status := "Succeeded", publicIp := ip_address,
              confText := some conf0 })
      | none =>
        .ok (true, none, some
          { vmName := vm_name, status := "Failed",
            error := some "WireGuard setup failed", publicIp := ip_address })
    else if vm.provisioning_state == "Creating" || vm.provisioning_state == "Updating" then
      .ok (true, none, some
        { vmName := vm_name, status := "InProgress",
          progress := some ("VM provisioning state: " ++ vm.provisioning_state) })
    else if vm.provisioning_state == "Failed" then
      .ok (true, none, some
        { vmName := vm_name, status := "Failed",
          error := some (stateErrorMessage vm.instanceViewStatuses) })
    else
      .ok (true, none, some
        { vmName := vm_name, status := vm.provisioning_state,
          progress := some ("VM state: " ++ vm.provisioning_state) })

/-- `VMProvisioner.get_vm_status` (non-dry-run): the inner body wrapped in the
`except Exception as get_error:` handler of lines 596-609 — a not-found
exception folds into `InProgress`, any other exception is a hard failure. -/
def get_vm_status (vm_name : String) (vmGet : PyRes VMView)
    (ip_address : Option String) (conf_retrieved : Option String) :
    Bool × Option String × Option StatusData :=
  match get_vm_status_inner vm_name vmGet ip_address conf_retrieved with
  | .ok r => r
  | .exn e =>
    if pyContains e "ResourceNotFound" || pyContains e "NotFound" then
      (true, none, some
        { vmName := vm_name, status := "InProgress",
          progress := some "VM creation in progress (resource not yet visible)" })
    else
      (false, some ("Error querying VM status: " ++ e), none)

/-! ## Dry-run state machine (vm_provisioner.py lines 33-59) -/

/-- An entry of the `_dry_run_operations` dictionary. -/
structure DryRunOp where
  start_time : ℚ
  status : String
  public_ip : String
deriving DecidableEq

/-- `get_dry_run_status`: initialize the operation on first sight (pinning
`start_time` to the current clock), then recompute the status from the time
elapsed since initialization and write it back.  Wall-clock floats are
modelled as rationals. -/
def get_dry_run_status (ops : String → Option DryRunOp) (operation_id : String)
    (now : ℚ) : DryRunOp × (String → Option DryRunOp) :=
  let op0 := (ops operation_id).getD
    { start_time := now, status := "Running", public_ip := "203.0.113.42" }
  let elapsed := now - op0.start_time
  let st := if elapsed < 3 then "Creating"
            else if elapsed < 8 then "Running"
            else "Succeeded"
  let op1 := { op0 with status := st }
  (op1, fun k => if k == operation_id then some op1 else ops k)

/-- Position of a dry-run status in the Creating → Running → Succeeded
progression. -/
def dryRunRank (s : String) : Nat :=
  if s == "Creating" then 0 else if s == "Running" then 1 else 2

/-! ## Status store (status_store.py) and the upstream polling loop
(start_job/__init__.py) -/

/-- `JobStatus` enumeration. -/
inductive JobStatus where
  | pending
  | running
  | completed
  | failed
deriving DecidableEq, Repr

/-- A job record of the in-memory status store.  The `createdAt` /
`lastUpdatedAt` wall-clock stamps are not modelled (no claim depends on
them); the upstream `result` dictionary is modelled as an association list. -/
structure Job where
  operationId : String
  status : JobStatus
  userEmail : String
  progress : String
  result : Option (List (String × String))
  error : Option String
  upstreamId : Option String
deriving DecidableEq

/-- The `**updates` keyword arguments accepted by `StatusStore.update_job`;
a `some` field is present in the kwargs and overwrites the record's field. -/
structure JobUpdates where
  status : Option JobStatus := none
  progress : Option String := none
  result : Option (Option (List (String × String))) := none
  error : Option (Option String) := none
  upstreamId : Option (Option String) := none
deriving DecidableEq

/-- `StatusStore.create_job`: the fresh job record. -/
def create_job (operation_id user_email : String) : Job :=
  { operationId := operation_id
    status := JobStatus.pending
    userEmail := user_email
    progress := "Job created"
    result := none
    error := none
    upstreamId := none }

/-- `StatusStore.update_job` applied to an existing record: `job.update(updates)`
— every supplied field overwrites unconditionally, with no terminal-state
guard. -/
def update_job (job : Job) (u : JobUpdates) : Job :=
  { job with
    status := u.status.getD job.status
    progress := u.progress.getD job.progress
    result := u.result.getD job.result
    error := u.error.getD job.error
    upstreamId := u.upstreamId.getD job.upstreamId }

/-- The kwargs of `StatusStore.set_running`. -/
def runningUpdate (progress : String) : JobUpdates :=
  { status := some JobStatus.running, progress := some progress }

/-- The kwargs of `StatusStore.set_completed`. -/
def completedUpdate (result : List (String × String)) : JobUpdates :=
  { status := some JobStatus.completed
    progress := some "Completed successfully"
    result := some (some result) }

/-- The kwargs of `StatusStore.set_failed`. -/
def failedUpdate (error : String) : JobUpdates :=
  { status := some JobStatus.failed
    progress := some "Failed"
    error := some (some error) }

/-- `StatusStore.set_running`. -/
def set_running (job : Job) (progress : String) : Job := update_job job (runningUpdate progress)

/-- `StatusStore.set_completed`. -/
def set_completed (job : Job) (result : List (String × String)) : Job :=
  update_job job (completedUpdate result)

/-- `StatusStore.set_failed`. -/
def set_failed (job : Job) (error : String) : Job := update_job job (failedUpdate error)

/-- Python `x or default` on an optional string (`None` and `""` are falsy). -/
def pyOrElse (o : Option String) (default : String) : String :=
  match o with
  | some s => if s == "" then default else s
  | none => default

/-- One response of `provider.get_status(upstream_id)`: either
`success = False` with an optional error message, or `success = True` with a
status dictionary (fields `status`, `progress`, `result`, `error`, each
possibly absent). -/
inductive UpstreamResp where
  | errResp : Option String → UpstreamResp
  | okResp : Option String → Option String → Option (List (String × String)) →
      Option String → UpstreamResp
deriving DecidableEq

/-- An upstream response on which the polling loop keeps looping: a
successful status query whose (lower-cased) status is neither `completed` nor
`failed`. -/
def isRunningResp : UpstreamResp → Bool
  | .errResp _ => false
  | .okResp st _ _ _ =>
    !(pyLower (st.getD "") == "completed") && !(pyLower (st.getD "") == "failed")

/-- `_poll_upstream_status`, from attempt number `attempt` with `fuel`
attempts left: the sequence of store updates it applies to the job, paired
with the number of upstream status queries it performs.  Each query is
preceded by exactly one `time.sleep(5)`. -/
def pollFrom (resps : Nat → UpstreamResp) : Nat → Nat → List JobUpdates × Nat
  | _, 0 => ([failedUpdate "Job timed out after 5 minutes"], 0)
  | attempt, fuel + 1 =>
    match resps attempt with
    | .errResp msg => ([failedUpdate (pyOrElse msg "Lost contact with upstream")], 1)
    | .okResp st prog res err =>
      if pyLower (st.getD "") == "completed" then
        ([completedUpdate (res.getD [])], 1)
      else if pyLower (st.getD "") == "failed" then
        ([failedUpdate (err.getD "Upstream job failed")], 1)
      else
        ({ progress := some (prog.getD "Processing...") } :: (pollFrom resps (attempt + 1) fuel).1,
         (pollFrom resps (attempt + 1) fuel).2 + 1)

/-- The attempt budget of `_poll_upstream_status` (`max_attempts = 60`). -/
def pollMaxAttempts : Nat := 60

/-- The polling interval in seconds (`time.sleep(5)`). -/
def pollIntervalSeconds : Nat := 5

/-- `_poll_upstream_status(operation_id, upstream_id, store, provider)` run
against a job record: the final record and the number of upstream queries. -/
def _poll_upstream_status (resps : Nat → UpstreamResp) (job : Job) : Job × Nat :=
  let t := pollFrom resps 0 pollMaxAttempts
  (t.1.foldl update_job job, t.2)

/-- A store update that moves a job into a terminal state. -/
def isTerminalUpdate (u : JobUpdates) : Bool :=
  u.status == some JobStatus.completed || u.status == some JobStatus.failed

/-! ## Request principal validation (auth.py) -/

/-- The decoded `X-MS-CLIENT-PRINCIPAL` payload: the `userDetails` and
`userRoles` fields of the principal dictionary (`none` for an absent key). -/
structure Principal where
  userDetails : Option String
  userRoles : List String
deriving DecidableEq

/-- `validate_user`.  `decoded` is the outcome of the
base64-decode / utf-8-decode / JSON-parse pipeline applied to the header
value: `.error e` models any exception raised there (caught by the
`except Exception` handler), `.ok p` the successfully parsed principal.
A falsy `userDetails` (absent key, null, or empty string) is rejected as
"User email not found". -/
def validate_user (dry_run : Bool) (header : Option String)
    (decoded : Except String Principal) : Bool × Option String × Option String :=
  if dry_run then
    (true, some "dry-run-user@example.com", none)
  else
    match header with
    | none => (false, none, some "Authentication required")
    | some _ =>
      match decoded with
      | .error e => (false, none, some ("Authentication error: " ++ e))
      | .ok p =>
        match p.userDetails with
        | none => (false, none, some "User email not found")
        | some email =>
          if email == "" then (false, none, some "User email not found")
          else if p.userRoles.contains "invited" then (true, some email, none)
          else (false, some email, some ("User " ++ email ++ " is not an invited user"))

/-! ## Concrete instances used by witnesses and counterexamples -/

/-- A run-command output with log noise around a valid delimited config. -/
def goodRunOutput : String :=
  "boot log noise\n=== WIREGUARD_CLIENT_CONFIG_START ===\n[Interface]\nPrivateKey = X\nAddress = 10.13.13.2/24\n\n[Peer]\nPublicKey = Y\nEndpoint = 1.2.3.4:51820\n=== WIREGUARD_CLIENT_CONFIG_END ===\ntrailing noise"

/-- A run-command output whose delimited section is garbled (no
`[Interface]` / `[Peer]` sections). -/
def badBetweenOutput : String :=
  "=== WIREGUARD_CLIENT_CONFIG_START === garbage === WIREGUARD_CLIENT_CONFIG_END ==="

/-- An existing WireGuard VM in provider state `Succeeded`. -/
def vmSucceeded : VM :=
  { name := "wg-1700000000", tags := wgTags,
    provisioning_state := "Succeeded", location := "westeurope" }

/-- An environment holding `vmSucceeded`, with a resolvable public address
and failing run-command config retrieval. -/
def envWithVM : AzureEnv :=
  { vms := [vmSucceeded]
    publicIpOf := fun _ => some "203.0.113.7"
    runCommandConfig := fun _ => none
    resourceGroup := "wg-rg"
    hasAuthCredential := true
    networkExn := none
    vmCreateExn := none
    listExn := none }

/-- A retrieved client config that starts with `[Interface]` (as the configs
written by `wireguard_docker_setup.sh` do). -/
def interfaceFirstConfig : String :=
  "[Interface]\nPrivateKey = AAA\nAddress = 10.13.13.2/24\n\n[Peer]\nPublicKey = BBB\nEndpoint = REPLACE_WITH_PUBLIC_IP:51820\n"

/-- A dry-run operation initialized at clock 0. -/
def opA : DryRunOp := { start_time := 0, status := "Running", public_ip := "203.0.113.42" }

/-- A dry-run operations dictionary holding `opA` under id `dry-run-1`. -/
def opsA : String → Option DryRunOp :=
  fun k => if k == "dry-run-1" then some opA else none

/-- An empty dry-run operations dictionary. -/
def opsEmpty : String → Option DryRunOp := fun _ => none

/-- An upstream that reports `running` forever. -/
def respsAllRunning : Nat → UpstreamResp :=
  fun _ => UpstreamResp.okResp (some "running") (some "Provisioning VM...") none none

/-- A freshly created job record. -/
def jobA : Job := create_job "op-1" "user@example.com"

/-! ## Theorems -/

/-- C2: for every input string, `_extract_wireguard_config` returns either
`none` or a string containing both `[Interface]` and `[Peer]`; an input
missing either sentinel marker yields `none`, and so does an input whose
stripped text between the markers lacks either structural section marker. -/
theorem extract_config_none_or_valid (out : String) :
    (∀ s, _extract_wireguard_config out = some s →
      pyContains s "[Interface]" = true ∧ pyContains s "[Peer]" = true)
    ∧ ((findIdxL startMarkerWG.data out.data = none ∨
        findIdxL endMarkerWG.data out.data = none) →
      _extract_wireguard_config out = none)
    ∧ (∀ si ei, findIdxL startMarkerWG.data out.data = some si →
        findIdxL endMarkerWG.data out.data = some ei →
        (pyContains (extractionSlice out si ei) "[Interface]" = false ∨
         pyContains (extractionSlice out si ei) "[Peer]" = false) →
      _extract_wireguard_config out = none) := by
  refine ⟨?_, ?_, ?_⟩
  · intro s hs
    unfold _extract_wireguard_config at hs
    split at hs
    · split at hs
      · rename_i hcond
        cases hs
        exact ⟨(Bool.and_eq_true _ _ |>.mp hcond).1, (Bool.and_eq_true _ _ |>.mp hcond).2⟩
      · exact absurd hs (by simp)
    · exact absurd hs (by simp)
    · exact absurd hs (by simp)
  · intro h
    unfold _extract_wireguard_config
    rcases h with h | h
    · rw [h]
    · cases hstart : findIdxL startMarkerWG.data out.data with
      | none => rw [h]
      | some si => rw [h]
  · intro si ei h1 h2 hbad
    unfold _extract_wireguard_config
    rw [h1, h2]
    rcases hbad with h | h <;> simp [h]

set_option maxRecDepth 8000 in
/-- Witness for C2: a valid delimited output extracts to a config containing
both section markers; an output without markers and an output with garbled
text between the markers both yield `none`. -/
theorem extract_config_none_or_valid_witness :
    (pyContains "[Interface]\nPrivateKey = X\nAddress = 10.13.13.2/24\n\n[Peer]\nPublicKey = Y\nEndpoint = 1.2.3.4:51820" "[Interface]" = true
     ∧ pyContains "[Interface]\nPrivateKey = X\nAddress = 10.13.13.2/24\n\n[Peer]\nPublicKey = Y\nEndpoint = 1.2.3.4:51820" "[Peer]" = true)
    ∧ _extract_wireguard_config "run command produced no markers" = none
    ∧ _extract_wireguard_config badBetweenOutput = none := by
  refine ⟨(extract_config_none_or_valid goodRunOutput).1 _ (by decide),
    (extract_config_none_or_valid "run command produced no markers").2.1 (Or.inl (by decide)),
    (extract_config_none_or_valid badBetweenOutput).2.2 0 46 (by decide) (by decide)
      (Or.inl (by decide))⟩

/-- The existing-VM branch of `get_or_create_vm`, written out: with no list
exception and a tagged active VM found, the call returns that VM (operation
id equal to its name, `isExisting = true`) and leaves the provider state
untouched. -/
theorem get_or_create_vm_existing_eq (env : AzureEnv) (vm : VM) (n l : String)
    (hlist : env.listExn = none) (hfind : findActiveWG env.vms = some vm) :
    get_or_create_vm env n l =
      ((true, none, some
        { vmName := vm.name
          operationId := vm.name
          status := vm.provisioning_state
          location := some vm.location
          publicIp := env.publicIpOf (vm.name ++ "-ip")
          publicIpName := some (vm.name ++ "-ip")
          resourceGroup := some env.resourceGroup
          confText :=
            match env.publicIpOf (vm.name ++ "-ip") with
            | some ip =>
              if vm.provisioning_state == "Succeeded" && ip != "" then
                match env.runCommandConfig vm.name with
                | some c => some c
                | none => some (_get_sample_config ip)
              else none
            | none => none
          isExisting := some true }), env) := by
  unfold get_or_create_vm
  rw [hlist, hfind]

/-- C1: `get_or_create_vm` is idempotent.  In every provider state containing
a VM tagged `purpose = wireguard-vpn` whose provisioning state is in
`{Succeeded, Creating, Updating}`, a (non-dry-run) call succeeds, returns the
first such VM's name as `operationId` with `isExisting = true`, and leaves
the provider state unchanged (in particular it starts no second creation);
consequently every sequence of such calls with no intervening teardown
returns that same `operationId` at every call. -/
theorem get_or_create_vm_idempotent (env : AzureEnv) (vm : VM)
    (freshName location : String) (names : List (String × String))
    (hlist : env.listExn = none) (hfind : findActiveWG env.vms = some vm) :
    (get_or_create_vm env freshName location).1.1 = true
    ∧ (∃ d, (get_or_create_vm env freshName location).1.2.2 = some d
        ∧ d.operationId = vm.name ∧ d.isExisting = some true)
    ∧ (get_or_create_vm env freshName location).2 = env
    ∧ (getOrCreateSeq env names).1 = names.map (fun _ => some vm.name) := by
  have hmain := get_or_create_vm_existing_eq env vm freshName location hlist hfind
  refine ⟨by rw [hmain], ?_, by rw [hmain], ?_⟩
  · rw [hmain]
    exact ⟨_, rfl, rfl, rfl⟩
  induction names with
  | nil => rfl
  | cons p rest ih =>
    obtain ⟨n, l⟩ := p
    have h := get_or_create_vm_existing_eq env vm n l hlist hfind
    simp only [getOrCreateSeq, h, List.map_cons, List.cons.injEq]
    exact ⟨rfl, ih⟩

/-- Witness for C1: with one tagged `Succeeded` VM present, the call returns
its name with `isExisting = true`, changes nothing, and two further calls
both return the same operation id. -/
theorem get_or_create_vm_idempotent_witness :
    (get_or_create_vm envWithVM "wg-fresh" "westeurope").1.1 = true
    ∧ (∃ d, (get_or_create_vm envWithVM "wg-fresh" "westeurope").1.2.2 = some d
        ∧ d.operationId = "wg-1700000000" ∧ d.isExisting = some true)
    ∧ (get_or_create_vm envWithVM "wg-fresh" "westeurope").2 = envWithVM
    ∧ (getOrCreateSeq envWithVM [("wg-a", "westeurope"), ("wg-b", "westeurope")]).1
        = [some "wg-1700000000", some "wg-1700000000"] := by
  have h := get_or_create_vm_idempotent envWithVM vmSucceeded "wg-fresh" "westeurope"
    [("wg-a", "westeurope"), ("wg-b", "westeurope")] rfl rfl
  exact ⟨h.1, h.2.1, h.2.2.1, h.2.2.2⟩

/-- C5 (amended): in `get_or_create_vm`, for an existing tagged VM in state
`Succeeded` with a resolved (truthy) address, when run-command config
retrieval fails the call still succeeds with `isExisting = true` but falls
back to the built-in sample config rendered with that address — it does not
return an absent config. -/
theorem get_or_create_vm_sample_fallback (env : AzureEnv) (vm : VM)
    (ip freshName location : String)
    (hlist : env.listExn = none) (hfind : findActiveWG env.vms = some vm)
    (hstate : vm.provisioning_state = "Succeeded")
    (hip : env.publicIpOf (vm.name ++ "-ip") = some ip) (hip2 : ip ≠ "")
    (hconf : env.runCommandConfig vm.name = none) :
    (get_or_create_vm env freshName location).1.1 = true
    ∧ (∃ d, (get_or_create_vm env freshName location).1.2.2 = some d
        ∧ d.confText = some (_get_sample_config ip)
        ∧ d.isExisting = some true) := by
  have hmain := get_or_create_vm_existing_eq env vm freshName location hlist hfind
  rw [hmain]
  refine ⟨rfl, _, rfl, ?_, rfl⟩
  simp [hip, hstate, hconf, hip2]

/-- Counterexample to C5 as stated: in `envWithVM` (existing `Succeeded` VM,
resolvable address `203.0.113.7`, failing retrieval) the returned `confText`
is the sample config, not an absent config. -/
theorem get_or_create_vm_no_config_counterexample :
    ((get_or_create_vm envWithVM "wg-fresh" "westeurope").1.2.2.map OperationData.confText)
      = some (some (_get_sample_config "203.0.113.7"))
    ∧ some (_get_sample_config "203.0.113.7") ≠ (none : Option String) := by
  exact ⟨rfl, by simp⟩

/-- Witness for C5 (amended) at `envWithVM`. -/
theorem get_or_create_vm_sample_fallback_witness :
    (get_or_create_vm envWithVM "wg-fresh" "westeurope").1.1 = true
    ∧ (∃ d, (get_or_create_vm envWithVM "wg-fresh" "westeurope").1.2.2 = some d
        ∧ d.confText = some (_get_sample_config "203.0.113.7")
        ∧ d.isExisting = some true) :=
  get_or_create_vm_sample_fallback envWithVM vmSucceeded "203.0.113.7" "wg-fresh" "westeurope"
    rfl rfl rfl rfl (by decide) rfl

/-- C3 (amended): for every VM whose provider state is `Succeeded`, when
run-command config retrieval fails, `get_vm_status` returns a call-level
success whose caller-visible status is `Failed` with error
`WireGuard setup failed` (and no config) — not `Succeeded` with empty
config. -/
theorem get_vm_status_retrieval_failure (name : String)
    (iv : Option (List (String × Option String))) (ip : Option String) :
    get_vm_status name (PyRes.ok ⟨"Succeeded", iv⟩) ip none =
      (true, none, some
        { vmName := name, status := "Failed",
          error := some "WireGuard setup failed", publicIp := ip }) := rfl

/-- Counterexample to C3 as stated: at a concrete `Succeeded` VM with failing
config retrieval, the reported status is `Failed`, not `Succeeded`. -/
theorem get_vm_status_retrieval_failure_counterexample :
    ((get_vm_status "wg-1" (PyRes.ok ⟨"Succeeded", none⟩) (some "203.0.113.7") none).2.2.map
        StatusData.status) = some "Failed"
    ∧ ((get_vm_status "wg-1" (PyRes.ok ⟨"Succeeded", none⟩) (some "203.0.113.7") none).2.2.map
        StatusData.status) ≠ some "Succeeded" := by
  exact ⟨rfl, by decide⟩

set_option maxRecDepth 8000 in
/-- C4 (code bug): for a `Succeeded` VM whose config retrieval yields a
config that contains the placeholder or starts with `[Interface]`, an
unresolved public address makes
`conf_text.replace("REPLACE_WITH_PUBLIC_IP", None)` raise a `TypeError`,
which the generic query-exception handler converts into a hard failure
(`success = False`) — address resolution is not best-effort there. -/
theorem get_vm_status_missing_ip_hard_failure :
    get_vm_status "wg-1" (PyRes.ok ⟨"Succeeded", none⟩) none (some interfaceFirstConfig)
      = (false, some "Error querying VM status: replace() argument 2 must be str, not NoneType",
         none) := by
  rfl

/-- C6: in non-dry-run `get_vm_status`, a provider query exception whose text
contains `ResourceNotFound` or `NotFound` yields a successful `InProgress`
result with the "not yet visible" progress note, and every other query
exception yields a hard failure (`success = False` with an error message). -/
theorem get_vm_status_query_exception (name e : String) (ip conf : Option String) :
    ((pyContains e "ResourceNotFound" = true ∨ pyContains e "NotFound" = true) →
      get_vm_status name (PyRes.exn e) ip conf =
        (true, none, some
          { vmName := name, status := "InProgress",
            progress := some "VM creation in progress (resource not yet visible)" }))
    ∧ (pyContains e "ResourceNotFound" = false → pyContains e "NotFound" = false →
      get_vm_status name (PyRes.exn e) ip conf =
        (false, some ("Error querying VM status: " ++ e), none)) := by
  constructor
  · intro h
    unfold get_vm_status get_vm_status_inner
    rcases h with h | h <;> simp [h]
  · intro h1 h2
    unfold get_vm_status get_vm_status_inner
    simp [h1, h2]

set_option maxRecDepth 8000 in
/-- Witness for C6: a `ResourceNotFound` exception folds into `InProgress`, a
connection error is a hard failure. -/
theorem get_vm_status_query_exception_witness :
    get_vm_status "wg-1" (PyRes.exn "The entity was not found. Code: ResourceNotFound") none none =
      (true, none, some
        { vmName := "wg-1", status := "InProgress",
          progress := some "VM creation in progress (resource not yet visible)" })
    ∧ get_vm_status "wg-1" (PyRes.exn "connection reset by peer") none none =
      (false, some ("Error querying VM status: " ++ "connection reset by peer"), none) := by
  exact ⟨(get_vm_status_query_exception "wg-1" _ none none).1 (Or.inl (by decide)),
    (get_vm_status_query_exception "wg-1" _ none none).2 (by decide) (by decide)⟩

/-- Rank of the dry-run threshold status is monotone in elapsed time. -/
theorem dryRunRank_threshold_mono (e1 e2 : ℚ) (h : e1 ≤ e2) :
    dryRunRank (if e1 < 3 then "Creating" else if e1 < 8 then "Running" else "Succeeded") ≤
    dryRunRank (if e2 < 3 then "Creating" else if e2 < 8 then "Running" else "Succeeded") := by
  by_cases ha : e1 < 3
  · rw [if_pos ha]
    exact Nat.zero_le _
  · have ha2 : ¬ e2 < 3 := fun hc => ha (lt_of_le_of_lt h hc)
    rw [if_neg ha, if_neg ha2]
    by_cases hb : e1 < 8
    · rw [if_pos hb]
      by_cases hc : e2 < 8
      · rw [if_pos hc]
      · rw [if_neg hc]
        decide
    · have hb2 : ¬ e2 < 8 := fun hc => hb (lt_of_le_of_lt h hc)
      rw [if_neg hb, if_neg hb2]

/-- C8: dry-run status is deterministic and monotonic.  For an initialized
operation, status at elapsed time `t` is `Creating` for `t < 3`, `Running`
for `3 ≤ t < 8`, `Succeeded` for `8 ≤ t`; the pinned `start_time` never
changes (a first call pins it to the call's clock), and a later query never
reports a state earlier in Creating → Running → Succeeded than an earlier
query did. -/
theorem dry_run_status_timeline (ops : String → Option DryRunOp) (opid : String)
    (op : DryRunOp) (t now1 now2 : ℚ) (hop : ops opid = some op) :
    ((t < 3 → (get_dry_run_status ops opid (op.start_time + t)).1.status = "Creating")
     ∧ (3 ≤ t → t < 8 → (get_dry_run_status ops opid (op.start_time + t)).1.status = "Running")
     ∧ (8 ≤ t → (get_dry_run_status ops opid (op.start_time + t)).1.status = "Succeeded"))
    ∧ (get_dry_run_status ops opid now1).1.start_time = op.start_time
    ∧ ((get_dry_run_status ops opid now1).2 opid = some (get_dry_run_status ops opid now1).1)
    ∧ (∀ ops2 : String → Option DryRunOp, ops2 opid = none →
        (get_dry_run_status ops2 opid now1).1.start_time = now1)
    ∧ (now1 ≤ now2 →
        dryRunRank (get_dry_run_status ops opid now1).1.status ≤
        dryRunRank (get_dry_run_status ((get_dry_run_status ops opid now1).2) opid now2).1.status) := by
  have hstat : ∀ (m : String → Option DryRunOp) (now : ℚ) (o : DryRunOp), m opid = some o →
      (get_dry_run_status m opid now).1.status =
        (if now - o.start_time < 3 then "Creating"
         else if now - o.start_time < 8 then "Running" else "Succeeded") := by
    intro m now o hm
    unfold get_dry_run_status
    rw [hm]
    rfl
  have hstart : ∀ (m : String → Option DryRunOp) (now : ℚ) (o : DryRunOp), m opid = some o →
      (get_dry_run_status m opid now).1.start_time = o.start_time := by
    intro m now o hm
    unfold get_dry_run_status
    rw [hm]
    rfl
  have hsnd : ∀ (m : String → Option DryRunOp) (now : ℚ),
      (get_dry_run_status m opid now).2 opid = some ((get_dry_run_status m opid now).1) := by
    intro m now
    unfold get_dry_run_status
    simp
  have helapsed : op.start_time + t - op.start_time = t := by ring
  refine ⟨⟨?_, ?_, ?_⟩, hstart ops now1 op hop, hsnd ops now1, ?_, ?_⟩
  · intro h
    rw [hstat ops (op.start_time + t) op hop, helapsed, if_pos h]
  · intro h3 h8
    rw [hstat ops (op.start_time + t) op hop, helapsed, if_neg (not_lt.mpr h3), if_pos h8]
  · intro h8
    rw [hstat ops (op.start_time + t) op hop, helapsed,
      if_neg (not_lt.mpr (by linarith)), if_neg (not_lt.mpr h8)]
  · intro ops2 h2
    unfold get_dry_run_status
    rw [h2]
    rfl
  · intro hle
    have hops2 := hsnd ops now1
    have h1s := hstat ops now1 op hop
    have h2s := hstat _ now2 _ hops2
    have hstart1 := hstart ops now1 op hop
    rw [h1s, h2s, hstart1]
    exact dryRunRank_threshold_mono _ _ (sub_le_sub_right hle _)

/-- Witness for C8: thresholds at elapsed 2, 5 and 9 seconds, pinning of
`start_time` on first initialization, and monotonicity between queries at
clock 2 and clock 9. -/
theorem dry_run_status_timeline_witness :
    (get_dry_run_status opsA "dry-run-1" (opA.start_time + 2)).1.status = "Creating"
    ∧ (get_dry_run_status opsA "dry-run-1" (opA.start_time + 5)).1.status = "Running"
    ∧ (get_dry_run_status opsA "dry-run-1" (opA.start_time + 9)).1.status = "Succeeded"
    ∧ (get_dry_run_status opsEmpty "dry-run-2" 7).1.start_time = 7
    ∧ dryRunRank (get_dry_run_status opsA "dry-run-1" 2).1.status ≤
        dryRunRank (get_dry_run_status ((get_dry_run_status opsA "dry-run-1" 2).2)
          "dry-run-1" 9).1.status := by
  have hop : opsA "dry-run-1" = some opA := rfl
  exact ⟨(dry_run_status_timeline opsA "dry-run-1" opA 2 0 0 hop).1.1 (by norm_num),
    (dry_run_status_timeline opsA "dry-run-1" opA 5 0 0 hop).1.2.1 (by norm_num) (by norm_num),
    (dry_run_status_timeline opsA "dry-run-1" opA 9 0 0 hop).1.2.2 (by norm_num),
    (dry_run_status_timeline opsA "dry-run-1" opA 0 7 0 hop).2.2.2.1 opsEmpty rfl,
    (dry_run_status_timeline opsA "dry-run-1" opA 0 2 9 hop).2.2.2.2 (by norm_num)⟩

/-- One run of the polling loop: its store-update trace is a (possibly
empty) block of progress-only updates followed by exactly one terminal
update; it performs at most `fuel` upstream queries (each preceded by one
5-second sleep); and if the upstream keeps reporting a running status for
the whole window, the budget is exhausted and the final update is the
timeout failure. -/
theorem pollFrom_spec (resps : Nat → UpstreamResp) :
    ∀ (fuel attempt : Nat),
      ∃ pre last, (pollFrom resps attempt fuel).1 = pre ++ [last]
        ∧ isTerminalUpdate last = true
        ∧ (∀ v ∈ pre, isTerminalUpdate v = false)
        ∧ (pollFrom resps attempt fuel).2 ≤ fuel
        ∧ ((∀ k, attempt ≤ k → k < attempt + fuel → isRunningResp (resps k) = true) →
            (pollFrom resps attempt fuel).2 = fuel
            ∧ last = failedUpdate "Job timed out after 5 minutes") := by
  intro fuel
  induction fuel with
  | zero =>
    intro attempt
    refine ⟨[], failedUpdate "Job timed out after 5 minutes", rfl, rfl, ?_, le_refl 0,
      fun _ => ⟨rfl, rfl⟩⟩
    intro v hv
    cases hv
  | succ n ih =>
    intro attempt
    cases hr : resps attempt with
    | errResp m =>
      have hstep : pollFrom resps attempt (n + 1) =
          ([failedUpdate (pyOrElse m "Lost contact with upstream")], 1) := by
        simp [pollFrom, hr]
      rw [hstep]
      refine ⟨[], failedUpdate (pyOrElse m "Lost contact with upstream"), rfl, rfl, ?_, ?_, ?_⟩
      · intro v hv; cases hv
      · show 1 ≤ n + 1
        omega
      · intro hall
        have hx := hall attempt le_rfl (by omega)
        rw [hr] at hx
        simp [isRunningResp] at hx
    | okResp st prog res err =>
      by_cases h1 : ((pyLower (st.getD "") == "completed") = true)
      · have hstep : pollFrom resps attempt (n + 1) = ([completedUpdate (res.getD [])], 1) := by
          simp [pollFrom, hr, h1]
        rw [hstep]
        refine ⟨[], completedUpdate (res.getD []), rfl, rfl, ?_, ?_, ?_⟩
        · intro v hv; cases hv
        · show 1 ≤ n + 1
          omega
        · intro hall
          have hx := hall attempt le_rfl (by omega)
          rw [hr] at hx
          simp [isRunningResp, h1] at hx
      · by_cases h2 : ((pyLower (st.getD "") == "failed") = true)
        · have hstep : pollFrom resps attempt (n + 1) =
              ([failedUpdate (err.getD "Upstream job failed")], 1) := by
            simp [pollFrom, hr, h1, h2]
          rw [hstep]
          refine ⟨[], failedUpdate (err.getD "Upstream job failed"), rfl, rfl, ?_, ?_, ?_⟩
          · intro v hv; cases hv
          · show 1 ≤ n + 1
            omega
          · intro hall
            have hx := hall attempt le_rfl (by omega)
            rw [hr] at hx
            simp [isRunningResp, h2] at hx
        · have hstep : pollFrom resps attempt (n + 1) =
              ({ progress := some (prog.getD "Processing...") } ::
                 (pollFrom resps (attempt + 1) n).1,
               (pollFrom resps (attempt + 1) n).2 + 1) := by
            simp [pollFrom, hr, h1, h2]
          rw [hstep]
          obtain ⟨pre, last, htr, hterm, hpre, hle, htime⟩ := ih (attempt + 1)
          refine ⟨{ progress := some (prog.getD "Processing...") } :: pre, last, ?_, hterm,
            ?_, ?_, ?_⟩
          · show _ :: (pollFrom resps (attempt + 1) n).1 = _
            rw [htr, List.cons_append]
          · intro v hv
            rcases List.mem_cons.mp hv with hv | hv
            · subst hv; rfl
            · exact hpre v hv
          · show (pollFrom resps (attempt + 1) n).2 + 1 ≤ n + 1
            omega
          · intro hall
            have hrec := htime (fun k hk1 hk2 => hall k (by omega) (by omega))
            constructor
            · show (pollFrom resps (attempt + 1) n).2 + 1 = n + 1
              omega
            · exact hrec.2

/-- C9: the upstream polling loop terminates within its attempt budget of 60
queries (one 5-second sleep before each, hence at most 300 seconds of
waiting), and if the whole budget passes with the upstream still reporting a
running status, the job is marked failed with the timeout message — a
terminal failure. -/
theorem poll_loop_bounded_and_times_out (resps : Nat → UpstreamResp) (job : Job) :
    (_poll_upstream_status resps job).2 ≤ pollMaxAttempts
    ∧ pollIntervalSeconds * (_poll_upstream_status resps job).2 ≤ 300
    ∧ ((∀ k, k < pollMaxAttempts → isRunningResp (resps k) = true) →
        (_poll_upstream_status resps job).2 = pollMaxAttempts
        ∧ (_poll_upstream_status resps job).1.status = JobStatus.failed
        ∧ (_poll_upstream_status resps job).1.error = some "Job timed out after 5 minutes") := by
  obtain ⟨pre, last, htr, hterm, hpre, hle, htime⟩ := pollFrom_spec resps pollMaxAttempts 0
  have hcalls : (_poll_upstream_status resps job).2 = (pollFrom resps 0 pollMaxAttempts).2 := rfl
  refine ⟨by rw [hcalls]; exact hle, ?_, ?_⟩
  · rw [hcalls]
    have h60 : (pollFrom resps 0 pollMaxAttempts).2 ≤ 60 := hle
    show 5 * (pollFrom resps 0 pollMaxAttempts).2 ≤ 300
    omega
  · intro hall
    have hex := htime (fun k hk1 hk2 => hall k (by omega))
    have hjob : (_poll_upstream_status resps job).1 =
        update_job (pre.foldl update_job job) last := by
      show (pollFrom resps 0 pollMaxAttempts).1.foldl update_job job = _
      rw [htr, List.foldl_append]
      rfl
    refine ⟨by rw [hcalls, hex.1], ?_, ?_⟩
    · rw [hjob, hex.2]
      rfl
    · rw [hjob, hex.2]
      rfl

/-- Witness for C9: an upstream that reports `running` forever exhausts the
60-attempt budget and the job ends failed with the timeout message. -/
theorem poll_loop_bounded_and_times_out_witness :
    (_poll_upstream_status respsAllRunning jobA).2 = pollMaxAttempts
    ∧ (_poll_upstream_status respsAllRunning jobA).1.status = JobStatus.failed
    ∧ (_poll_upstream_status respsAllRunning jobA).1.error =
        some "Job timed out after 5 minutes" :=
  (poll_loop_bounded_and_times_out respsAllRunning jobA).2.2 (fun _ _ => rfl)

/-- C7 (amended): the status store itself does not guard terminal states —
`update_job` overwrites unconditionally, so a `set_failed` after
`set_completed` changes the status; what does hold is that each
`_poll_upstream_status` run issues exactly one terminal transition, as its
final store update, so the finished job is terminal. -/
theorem poll_loop_single_terminal_transition (resps : Nat → UpstreamResp) (job : Job) :
    (∀ (j : Job) (r : List (String × String)) (e : String),
        (set_failed (set_completed j r) e).status = JobStatus.failed)
    ∧ (∃ pre last, (pollFrom resps 0 pollMaxAttempts).1 = pre ++ [last]
        ∧ isTerminalUpdate last = true
        ∧ (∀ v ∈ pre, isTerminalUpdate v = false))
    ∧ ((_poll_upstream_status resps job).1.status = JobStatus.completed
       ∨ (_poll_upstream_status resps job).1.status = JobStatus.failed) := by
  obtain ⟨pre, last, htr, hterm, hpre, hle, htime⟩ := pollFrom_spec resps pollMaxAttempts 0
  refine ⟨fun j r e => rfl, ⟨pre, last, htr, hterm, hpre⟩, ?_⟩
  have hjob : (_poll_upstream_status resps job).1 =
      update_job (pre.foldl update_job job) last := by
    show (pollFrom resps 0 pollMaxAttempts).1.foldl update_job job = _
    rw [htr, List.foldl_append]
    rfl
  rw [hjob]
  unfold isTerminalUpdate at hterm
  rcases (Bool.or_eq_true _ _).mp hterm with h | h
  · left
    have hs : last.status = some JobStatus.completed := by simpa using h
    simp [update_job, hs]
  · right
    have hs : last.status = some JobStatus.failed := by simpa using h
    simp [update_job, hs]

/-- Counterexample to C7 as stated: a `set_failed` issued after a job is
already `completed` (a terminal state) changes its status to `failed` — the
store neither rejects nor ignores updates after a terminal state. -/
theorem update_after_terminal_changes_status :
    (set_completed (create_job "op-1" "user@example.com") [("confText", "cfg")]).status
        = JobStatus.completed
    ∧ (set_failed (set_completed (create_job "op-1" "user@example.com") [("confText", "cfg")])
        "late failure").status = JobStatus.failed
    ∧ JobStatus.failed ≠ JobStatus.completed := by
  exact ⟨rfl, rfl, by decide⟩

/-- C10: `validate_user` is total over malformed credentials.  In dry-run
mode it always accepts as `dry-run-user@example.com` regardless of the
header; otherwise a missing header, a decode/parse exception, a falsy
`userDetails`, and a missing `invited` role each produce
`(False, optional-email, error-message)` — and whenever validation fails,
an error message is present (the caller surfaces 403, never an unhandled
exception). -/
theorem validate_user_total (header : Option String) (decoded : Except String Principal) :
    validate_user true header decoded = (true, some "dry-run-user@example.com", none)
    ∧ (header = none →
        validate_user false header decoded = (false, none, some "Authentication required"))
    ∧ (∀ h e, header = some h → decoded = Except.error e →
        validate_user false header decoded = (false, none, some ("Authentication error: " ++ e)))
    ∧ (∀ h p, header = some h → decoded = Except.ok p →
        (p.userDetails = none ∨ p.userDetails = some "") →
        validate_user false header decoded = (false, none, some "User email not found"))
    ∧ (∀ h p email, header = some h → decoded = Except.ok p →
        p.userDetails = some email → (email == "") = false →
        "invited" ∉ p.userRoles →
        validate_user false header decoded =
          (false, some email, some ("User " ++ email ++ " is not an invited user")))
    ∧ ((validate_user false header decoded).1 = false →
        (validate_user false header decoded).2.2 ≠ none) := by
  refine ⟨rfl, ?_, ?_, ?_, ?_, ?_⟩
  · intro h
    subst h
    rfl
  · intro h e hh hd
    subst hh
    subst hd
    rfl
  · intro h p hh hd hud
    subst hh
    subst hd
    rcases hud with hud | hud <;> simp [validate_user, hud]
  · intro h p email hh hd hud hne hrole
    subst hh
    subst hd
    simp [validate_user, hud, hne, hrole]
  · intro hfalse
    unfold validate_user at hfalse ⊢
    cases header with
    | none => simp
    | some h =>
      cases decoded with
      | error e => simp
      | ok p =>
        cases hud : p.userDetails with
        | none => simp [hud]
        | some email =>
          by_cases he : ((email == "") = true)
          · simp [hud, he]
          · by_cases hrole : ("invited" ∈ p.userRoles)
            · simp [hud, he, hrole] at hfalse
            · simp [hud, he, hrole]

/-- Witness for C10: concrete requests for each failure mode and the dry-run
bypass. -/
theorem validate_user_total_witness :
    validate_user true (some "hdr") (Except.error "boom")
      = (true, some "dry-run-user@example.com", none)
    ∧ validate_user false none (Except.ok ⟨some "a@b.c", ["invited"]⟩)
      = (false, none, some "Authentication required")
    ∧ validate_user false (some "%%%") (Except.error "Invalid base64-encoded string")
      = (false, none, some ("Authentication error: " ++ "Invalid base64-encoded string"))
    ∧ validate_user false (some "hdr2") (Except.ok ⟨none, ["invited"]⟩)
      = (false, none, some "User email not found")
    ∧ validate_user false (some "hdr3")
        (Except.ok ⟨some "user@example.com", ["anonymous", "authenticated"]⟩)
      = (false, some "user@example.com",
         some ("User " ++ "user@example.com" ++ " is not an invited user")) := by
  refine ⟨(validate_user_total (some "hdr") (Except.error "boom")).1,
    (validate_user_total none (Except.ok ⟨some "a@b.c", ["invited"]⟩)).2.1 rfl,
    (validate_user_total (some "%%%") (Except.error "Invalid base64-encoded string")).2.2.1
      "%%%" "Invalid base64-encoded string" rfl rfl,
    (validate_user_total (some "hdr2") (Except.ok ⟨none, ["invited"]⟩)).2.2.2.1
      "hdr2" ⟨none, ["invited"]⟩ rfl rfl (Or.inl rfl),
    (validate_user_total (some "hdr3")
        (Except.ok ⟨some "user@example.com", ["anonymous", "authenticated"]⟩)).2.2.2.2.1
      "hdr3" ⟨some "user@example.com", ["anonymous", "authenticated"]⟩ "user@example.com"
      rfl rfl rfl (by decide) (by decide)⟩
